import Mathlib

/-!
A shallow embedding of the unified error model and bootstrap lifecycle of an
early Deno host runtime (files `cli/errors.rs` and `src/main.rs`), together
with theorems checking the natural-language specification against it.

Foreign cause domains (std io errors, url parse errors, hyper transport
errors, nix errno values, the log crate) are modelled as closed Lean types
carrying exactly the observations the embedded code uses: a classification
tag and opaque description / display strings. Rust panics (the
`unreachable!()` arm of the io-kind match, the `items[0]` index on a
diagnostic batch) are modelled by `Option`-valued functions where `none`
stands for the panic.
-/

/-- The flat classification tags (`msg::ErrorKind`); the spec lists them in
its data-model section and `cli/errors.rs` re-exports them. -/
inductive ErrorKind
  | NotFound
  | PermissionDenied
  | ConnectionRefused
  | ConnectionReset
  | ConnectionAborted
  | NotConnected
  | AddrInUse
  | AddrNotAvailable
  | BrokenPipe
  | AlreadyExists
  | WouldBlock
  | InvalidInput
  | InvalidData
  | TimedOut
  | Interrupted
  | WriteZero
  | Other
  | UnexpectedEof
  | EmptyHost
  | IdnaError
  | InvalidPort
  | InvalidIpv4Address
  | InvalidIpv6Address
  | InvalidDomainCharacter
  | RelativeUrlWithoutBase
  | RelativeUrlWithCannotBeABaseBase
  | SetHostOnCannotBeABaseUrl
  | Overflow
  | HttpParse
  | HttpUser
  | HttpCanceled
  | HttpClosed
  | HttpOther
  | ImportMapError
  | Diagnostic
  | JSError
  | UnixError
  | BadResource
  | WorkerInitFailed
  | NoAsyncSupport
  | NoSyncSupport
  | OpNotAvailable
  deriving DecidableEq

/-- The platform io-error categories (`std::io::ErrorKind`, 2019 era): the
eighteen publicly constructible variants matched in `DenoError::kind`, plus
the hidden non-exhaustive variant that no user code can construct, which is
what the wildcard `unreachable!()` arm of the match stands for. -/
inductive IoErrorKind
  | NotFound
  | PermissionDenied
  | ConnectionRefused
  | ConnectionReset
  | ConnectionAborted
  | NotConnected
  | AddrInUse
  | AddrNotAvailable
  | BrokenPipe
  | AlreadyExists
  | WouldBlock
  | InvalidInput
  | InvalidData
  | TimedOut
  | Interrupted
  | WriteZero
  | Other
  | UnexpectedEof
  | Nonexhaustive
  deriving DecidableEq

/-- A constructible io-error category: every public variant, i.e. everything
except the hidden non-exhaustive marker. -/
def IoErrorKind.constructible : IoErrorKind → Bool
  | .Nonexhaustive => false
  | _ => true

/-- A native io error (`std::io::Error`): a category plus the opaque
description and display texts the foreign type renders itself. -/
structure IoError where
  kind : IoErrorKind
  description : String
  display : String
  deriving DecidableEq

/-- `url::ParseError` reason codes, one constructor per variant of the
foreign enum (a closed enumeration). -/
inductive UrlErr
  | EmptyHost
  | IdnaError
  | InvalidPort
  | InvalidIpv4Address
  | InvalidIpv6Address
  | InvalidDomainCharacter
  | RelativeUrlWithoutBase
  | RelativeUrlWithCannotBeABaseBase
  | SetHostOnCannotBeABaseUrl
  | Overflow
  deriving DecidableEq

/-- The description text of a url parse error, as rendered by the foreign
crate (its Display delegates to the same text). -/
def UrlErr.description : UrlErr → String
  | .EmptyHost => "empty host"
  | .IdnaError => "invalid international domain name"
  | .InvalidPort => "invalid port number"
  | .InvalidIpv4Address => "invalid IPv4 address"
  | .InvalidIpv6Address => "invalid IPv6 address"
  | .InvalidDomainCharacter => "invalid domain character"
  | .RelativeUrlWithoutBase => "relative URL without a base"
  | .RelativeUrlWithCannotBeABaseBase => "relative URL with a cannot-be-a-base base"
  | .SetHostOnCannotBeABaseUrl => "a cannot-be-a-base URL has no host to set"
  | .Overflow => "URLs more than 4 GB are not supported"

/-- The Display rendering of a url parse error delegates to its
description. -/
def UrlErr.display (e : UrlErr) : String := e.description

/-- An HTTP transport error (`hyper::Error`): its kind is private, so the
code observes it only through four Boolean predicates, plus its opaque
description and display texts. -/
structure HyperError where
  is_parse : Bool
  is_user : Bool
  is_canceled : Bool
  is_closed : Bool
  description : String
  display : String
  deriving DecidableEq

/-- An import-map error (`import_map::ImportMapError`): carries a message
field `msg`. -/
structure ImportMapError where
  msg : String
  deriving DecidableEq

/-- One item of a diagnostic batch; the embedded code reads its `message`
field. -/
structure DiagnosticItem where
  message : String
  deriving DecidableEq

/-- A compiler diagnostic batch (`diagnostics::Diagnostic`): a list of
items. -/
structure Diagnostic where
  items : List DiagnosticItem
  deriving DecidableEq

/-- Modelled from the spec: the diagnostic batch renders through its own
multi-item formatter (the concrete formatter lives outside the provided
source files). -/
def Diagnostic.display (d : Diagnostic) : String :=
  String.intercalate "\n" (d.items.map (fun i => i.message))

/-- One stack frame of a script exception, with a generated-code position
that source mapping may rewrite. -/
structure StackFrame where
  scriptName : String
  line : Nat
  column : Nat
  deriving DecidableEq

/-- A script-engine exception (`deno::JSError`): a message and stack
frames. -/
structure JSError where
  message : String
  frames : List StackFrame
  deriving DecidableEq

/-- Modelled from the spec: script exceptions render through a colorized
stack-trace formatter (`fmt_errors::JSErrorColor`, outside the provided
source files). -/
def JSError.displayColor (js : JSError) : String :=
  String.intercalate "\n" (js.message :: js.frames.map (fun f =>
    f.scriptName ++ ":" ++ toString f.line ++ ":" ++ toString f.column))

/-- The tagged union of causes (`Repr` in `cli/errors.rs`): one Simple
(kind, message) pair or one foreign cause value. -/
inductive ErrorRepr
  | Simple (kind : ErrorKind) (msg : String)
  | IoErr (err : IoError)
  | UrlErr (err : UrlErr)
  | HyperErr (err : HyperError)
  | ImportMapErr (err : ImportMapError)
  | Diagnostic (err : Diagnostic)
  | JSError (err : JSError)
  deriving DecidableEq

/-- The unified error type (`DenoError`), owning exactly one repr. -/
structure DenoError where
  repr : ErrorRepr
  deriving DecidableEq

/-- Create a new simple DenoError (`errors::new`). -/
def DenoError.new (kind : ErrorKind) (msg : String) : DenoError :=
  ⟨.Simple kind msg⟩

/-- `DenoError::kind`: the classifier. `none` models the panic of the
`unreachable!()` wildcard arm of the io-kind match; every written-out arm
returns `some`. -/
def DenoError.kind (e : DenoError) : Option ErrorKind :=
  match e.repr with
  | .Simple kind _ => some kind
  | .IoErr err =>
    match err.kind with
    | .NotFound => some ErrorKind.NotFound
    | .PermissionDenied => some ErrorKind.PermissionDenied
    | .ConnectionRefused => some ErrorKind.ConnectionRefused
    | .ConnectionReset => some ErrorKind.ConnectionReset
    | .ConnectionAborted => some ErrorKind.ConnectionAborted
    | .NotConnected => some ErrorKind.NotConnected
    | .AddrInUse => some ErrorKind.AddrInUse
    | .AddrNotAvailable => some ErrorKind.AddrNotAvailable
    | .BrokenPipe => some ErrorKind.BrokenPipe
    | .AlreadyExists => some ErrorKind.AlreadyExists
    | .WouldBlock => some ErrorKind.WouldBlock
    | .InvalidInput => some ErrorKind.InvalidInput
    | .InvalidData => some ErrorKind.InvalidData
    | .TimedOut => some ErrorKind.TimedOut
    | .Interrupted => some ErrorKind.Interrupted
    | .WriteZero => some ErrorKind.WriteZero
    | .Other => some ErrorKind.Other
    | .UnexpectedEof => some ErrorKind.UnexpectedEof
    | .Nonexhaustive => none
  | .UrlErr err =>
    match err with
    | .EmptyHost => some ErrorKind.EmptyHost
    | .IdnaError => some ErrorKind.IdnaError
    | .InvalidPort => some ErrorKind.InvalidPort
    | .InvalidIpv4Address => some ErrorKind.InvalidIpv4Address
    | .InvalidIpv6Address => some ErrorKind.InvalidIpv6Address
    | .InvalidDomainCharacter => some ErrorKind.InvalidDomainCharacter
    | .RelativeUrlWithoutBase => some ErrorKind.RelativeUrlWithoutBase
    | .RelativeUrlWithCannotBeABaseBase =>
      some ErrorKind.RelativeUrlWithCannotBeABaseBase
    | .SetHostOnCannotBeABaseUrl => some ErrorKind.SetHostOnCannotBeABaseUrl
    | .Overflow => some ErrorKind.Overflow
  | .HyperErr err =>
    if err.is_parse then some ErrorKind.HttpParse
    else if err.is_user then some ErrorKind.HttpUser
    else if err.is_canceled then some ErrorKind.HttpCanceled
    else if err.is_closed then some ErrorKind.HttpClosed
    else some ErrorKind.HttpOther
  | .ImportMapErr _ => some ErrorKind.ImportMapError
  | .Diagnostic _ => some ErrorKind.Diagnostic
  | .JSError _ => some ErrorKind.JSError

/-- Whether the repr is the script-exception variant. -/
def ErrorRepr.isJSError : ErrorRepr → Bool
  | .JSError _ => true
  | _ => false

/-- `DenoError::apply_source_map`: rewrite the script-exception variant
through the external translator (abstracted as `smap`, standing for
`source_maps::apply_source_map` applied with a fixed getter); every other
variant is returned as-is. -/
def DenoError.apply_source_map (smap : JSError → JSError) (e : DenoError) :
    DenoError :=
  match e.repr with
  | .JSError js => ⟨.JSError (smap js)⟩
  | _ => e

/-- The Display rendering (`impl fmt::Display for DenoError`): delegates to
each wrapped cause. -/
def DenoError.display (e : DenoError) : String :=
  match e.repr with
  | .Simple _ err_str => err_str
  | .IoErr err => err.display
  | .UrlErr err => err.display
  | .HyperErr err => err.display
  | .ImportMapErr err => err.msg
  | .Diagnostic err => err.display
  | .JSError err => err.displayColor

/-- `Error::description` for DenoError. The diagnostic arm indexes
`items[0]`; `none` models the panic that indexing an empty batch would
raise. -/
def DenoError.description (e : DenoError) : Option String :=
  match e.repr with
  | .Simple _ msg => some msg
  | .IoErr err => some err.description
  | .UrlErr err => some err.description
  | .HyperErr err => some err.description
  | .ImportMapErr err => some err.msg
  | .Diagnostic err => (err.items.head?).map (fun i => i.message)
  | .JSError err => some err.message

/-- A foreign cause exposed by `Error::cause` introspection. -/
inductive ForeignCause
  | io (err : IoError)
  | url (err : UrlErr)
  | hyper (err : HyperError)
  deriving DecidableEq

/-- `Error::cause` for DenoError: the wrapped foreign error for io, url and
transport variants; `none` for the rest. -/
def DenoError.cause (e : DenoError) : Option ForeignCause :=
  match e.repr with
  | .Simple _ _ => none
  | .IoErr err => some (.io err)
  | .UrlErr err => some (.url err)
  | .HyperErr err => some (.hyper err)
  | .ImportMapErr _ => none
  | .Diagnostic _ => none
  | .JSError _ => none

/-- A unified error is constructible when its wrapped cause is: only the io
variant has a non-constructible inhabitant in the model (the hidden
non-exhaustive io category). -/
def DenoError.constructible (e : DenoError) : Bool :=
  match e.repr with
  | .IoErr err => err.kind.constructible
  | _ => true

/-- A platform errno value (`nix::errno::Errno`): identified by its code,
carrying its fixed description text. EPERM is code 1, ENOENT code 2,
EINVAL code 22. -/
structure Errno where
  code : Nat
  desc : String
  deriving DecidableEq

/-- EPERM with its platform description. -/
def Errno.EPERM : Errno := ⟨1, "Operation not permitted"⟩

/-- ENOENT with its platform description. -/
def Errno.ENOENT : Errno := ⟨2, "No such file or directory"⟩

/-- EINVAL with its platform description. -/
def Errno.EINVAL : Errno := ⟨22, "Invalid argument"⟩

/-- A platform failure (`nix::Error`): either an errno or one of the
non-errno failure variants. -/
inductive UnixError
  | Sys (errno : Errno)
  | InvalidPath
  | InvalidUtf8
  | UnsupportedOperation
  deriving DecidableEq

/-- The Display rendering of a platform failure, per the foreign crate. -/
def UnixError.display : UnixError → String
  | .Sys errno => errno.desc
  | .InvalidPath => "Invalid path"
  | .InvalidUtf8 => "Invalid UTF-8 string"
  | .UnsupportedOperation => "Unsupported Operation"

/-- `impl From<UnixError> for DenoError`: the three-way errno special case,
the generic errno fallback, and the non-errno fallback. -/
def DenoError.fromUnixError (e : UnixError) : DenoError :=
  match e with
  | .Sys errno =>
    if errno.code = Errno.EPERM.code then
      ⟨.Simple .PermissionDenied Errno.EPERM.desc⟩
    else if errno.code = Errno.EINVAL.code then
      ⟨.Simple .InvalidInput Errno.EINVAL.desc⟩
    else if errno.code = Errno.ENOENT.code then
      ⟨.Simple .NotFound Errno.ENOENT.desc⟩
    else
      ⟨.Simple .UnixError errno.desc⟩
  | e => ⟨.Simple .Other e.display⟩

/-- A resolve-address failure (`resolve_addr::ResolveAddrError`): a syntax
error or a resolution failure wrapping an io error. -/
inductive ResolveAddrError
  | SyntaxErr
  | Resolution (io_err : IoError)
  deriving DecidableEq

/-- `impl From<ResolveAddrError> for DenoError`. -/
def DenoError.fromResolveAddrError (e : ResolveAddrError) : DenoError :=
  match e with
  | .SyntaxErr => ⟨.Simple .InvalidInput "invalid address syntax"⟩
  | .Resolution io_err => ⟨.IoErr io_err⟩

/-- The leveled record severities of the logging facade (log crate),
ordered by increasing verbosity. -/
inductive LogLevel
  | Error
  | Warn
  | Info
  | Debug
  | Trace
  deriving DecidableEq

/-- The numeric severity used by the facade for threshold comparison. -/
def LogLevel.toNat : LogLevel → Nat
  | .Error => 1
  | .Warn => 2
  | .Info => 3
  | .Debug => 4
  | .Trace => 5

/-- The upper-case level name rendered at the head of a log line. -/
def LogLevel.str : LogLevel → String
  | .Error => "ERROR"
  | .Warn => "WARN"
  | .Info => "INFO"
  | .Debug => "DEBUG"
  | .Trace => "TRACE"

/-- The threshold values of the logging facade. -/
inductive LogLevelFilter
  | Off
  | Error
  | Warn
  | Info
  | Debug
  | Trace
  deriving DecidableEq

/-- The numeric value of a threshold. -/
def LogLevelFilter.toNat : LogLevelFilter → Nat
  | .Off => 0
  | .Error => 1
  | .Warn => 2
  | .Info => 3
  | .Debug => 4
  | .Trace => 5

/-- A log record: a severity and the formatted arguments. -/
structure LogRecord where
  level : LogLevel
  args : String
  deriving DecidableEq

/-- The threshold installed at startup (`main`): Debug when the debug flag
is set, else Info. -/
def maxLevel (log_debug : Bool) : LogLevelFilter :=
  if log_debug then .Debug else .Info

/-- `Logger::enabled`: a record passes when its level is at or below the
installed threshold. -/
def Logger.enabled (threshold : LogLevelFilter) (level : LogLevel) : Bool :=
  level.toNat ≤ threshold.toNat

/-- `Logger::log`: render one line per enabled record, in the format
LEVEL space RS space dash space message; `none` when filtered out. -/
def Logger.log (threshold : LogLevelFilter) (r : LogRecord) : Option String :=
  if Logger.enabled threshold r.level then
    some (r.level.str ++ " RS - " ++ r.args)
  else
    none

/-- The observable outcome of bootstrapping one execution context. -/
structure ProcessOutcome where
  output : List String
  exitStatus : Option Nat
  enteredEventLoop : Bool
  deriving DecidableEq

/-- The bootstrap run of one execution context (`main`): on a synchronous
execution failure, log the error through the error-level macro and exit
with status 1 without entering the event loop; on success, enter the event
loop. Modelled from the spec: the isolate's `execute` and the source-map
translation of the surfaced error live outside the provided source files,
so the surfaced error is translated through the abstract `smap` before
rendering, exactly as the spec's lifecycle contract states. -/
def runIsolateBootstrap (smap : JSError → JSError)
    (execResult : Except DenoError Unit) : ProcessOutcome :=
  match execResult with
  | .error err =>
    { output := [LogLevel.str .Error ++ " RS - " ++
        (DenoError.apply_source_map smap err).display]
      exitStatus := some 1
      enteredEventLoop := false }
  | .ok _ =>
    { output := []
      exitStatus := none
      enteredEventLoop := true }

/-- Claim C1: for every value constructible from each foreign cause domain
wrapped in a unified error, the classifier returns a defined ErrorKind
without panicking; no constructible input reaches the unreachable arm of
the io-error match. -/
theorem kind_total_on_constructible (e : DenoError)
    (h : e.constructible = true) : (DenoError.kind e).isSome = true := by
  obtain ⟨r⟩ := e
  cases r with
  | Simple k m => rfl
  | IoErr err =>
    obtain ⟨k, d1, d2⟩ := err
    cases k <;>
      simp_all [DenoError.constructible, IoErrorKind.constructible,
        DenoError.kind]
  | UrlErr err => cases err <;> rfl
  | HyperErr err =>
    obtain ⟨p, u, c, cl, d1, d2⟩ := err
    cases p <;> cases u <;> cases c <;> cases cl <;> rfl
  | ImportMapErr err => rfl
  | Diagnostic err => rfl
  | JSError err => rfl

/-- Witness for C1 at a concrete constructible io-wrapped error. -/
theorem kind_total_on_constructible_witness :
    (DenoError.mk (.IoErr ⟨.NotFound, "file not found", "file not found"⟩)).constructible
      = true ∧
    (DenoError.kind
      (DenoError.mk (.IoErr ⟨.NotFound, "file not found", "file not found"⟩))).isSome
      = true :=
  ⟨rfl, kind_total_on_constructible _ rfl⟩

/-- Claim C2: applying source-map translation to a unified error that is not
a script exception returns an observably identical error: the very same
error, hence the same kind and the same rendered Display text. -/
theorem apply_source_map_id_on_non_js (smap : JSError → JSError)
    (e : DenoError) (h : e.repr.isJSError = false) :
    DenoError.apply_source_map smap e = e ∧
    DenoError.kind (DenoError.apply_source_map smap e) = DenoError.kind e ∧
    (DenoError.apply_source_map smap e).display = e.display := by
  obtain ⟨r⟩ := e
  cases r <;> simp_all [ErrorRepr.isJSError, DenoError.apply_source_map]

/-- Witness for C2 at a concrete simple error and the identity getter. -/
theorem apply_source_map_id_on_non_js_witness :
    (DenoError.new .Other "m").repr.isJSError = false ∧
    (DenoError.apply_source_map id (DenoError.new .Other "m")
        = DenoError.new .Other "m" ∧
      DenoError.kind (DenoError.apply_source_map id (DenoError.new .Other "m"))
        = DenoError.kind (DenoError.new .Other "m") ∧
      (DenoError.apply_source_map id (DenoError.new .Other "m")).display
        = (DenoError.new .Other "m").display) :=
  ⟨rfl, apply_source_map_id_on_non_js id (DenoError.new .Other "m") rfl⟩

/-- Claim C3: conversion from a platform failure: EPERM yields
PermissionDenied, EINVAL yields InvalidInput, ENOENT yields NotFound, every
other errno yields the platform-error kind with rendered text equal to the
errno description, and a non-errno failure yields Other carrying its
rendered message. -/
theorem fromUnixError_spec (errno : Errno) (u : UnixError)
    (h1 : errno.code ≠ 1) (h2 : errno.code ≠ 22) (h3 : errno.code ≠ 2)
    (hu : ∀ e, u ≠ .Sys e) :
    DenoError.fromUnixError (.Sys Errno.EPERM)
      = ⟨.Simple .PermissionDenied Errno.EPERM.desc⟩ ∧
    DenoError.kind (DenoError.fromUnixError (.Sys Errno.EPERM))
      = some .PermissionDenied ∧
    DenoError.fromUnixError (.Sys Errno.EINVAL)
      = ⟨.Simple .InvalidInput Errno.EINVAL.desc⟩ ∧
    DenoError.kind (DenoError.fromUnixError (.Sys Errno.EINVAL))
      = some .InvalidInput ∧
    DenoError.fromUnixError (.Sys Errno.ENOENT)
      = ⟨.Simple .NotFound Errno.ENOENT.desc⟩ ∧
    DenoError.kind (DenoError.fromUnixError (.Sys Errno.ENOENT))
      = some .NotFound ∧
    DenoError.kind (DenoError.fromUnixError (.Sys errno))
      = some .UnixError ∧
    (DenoError.fromUnixError (.Sys errno)).display = errno.desc ∧
    DenoError.kind (DenoError.fromUnixError u) = some .Other ∧
    (DenoError.fromUnixError u).display = u.display := by
  refine ⟨rfl, rfl, rfl, rfl, rfl, rfl, ?_, ?_, ?_, ?_⟩
  · simp [DenoError.fromUnixError, Errno.EPERM, Errno.EINVAL, Errno.ENOENT,
      h1, h2, h3, DenoError.kind]
  · simp [DenoError.fromUnixError, Errno.EPERM, Errno.EINVAL, Errno.ENOENT,
      h1, h2, h3, DenoError.display]
  · cases u with
    | Sys e => exact absurd rfl (hu e)
    | InvalidPath => rfl
    | InvalidUtf8 => rfl
    | UnsupportedOperation => rfl
  · cases u with
    | Sys e => exact absurd rfl (hu e)
    | InvalidPath => rfl
    | InvalidUtf8 => rfl
    | UnsupportedOperation => rfl

/-- Witness for C3 at EACCES (code 13) and the invalid-path failure. -/
theorem fromUnixError_spec_witness :
    ((13 : Nat) ≠ 1 ∧ (13 : Nat) ≠ 22 ∧ (13 : Nat) ≠ 2) ∧
    DenoError.kind (DenoError.fromUnixError (.Sys ⟨13, "Permission denied"⟩))
      = some .UnixError ∧
    (DenoError.fromUnixError (.Sys ⟨13, "Permission denied"⟩)).display
      = "Permission denied" ∧
    DenoError.kind (DenoError.fromUnixError .InvalidPath) = some .Other ∧
    (DenoError.fromUnixError .InvalidPath).display = "Invalid path" := by
  have h := fromUnixError_spec ⟨13, "Permission denied"⟩ .InvalidPath
    (by decide) (by decide) (by decide) (fun e hh => UnixError.noConfusion hh)
  exact ⟨⟨by decide, by decide, by decide⟩, h.2.2.2.2.2.2.1, h.2.2.2.2.2.2.2.1,
    h.2.2.2.2.2.2.2.2.1, h.2.2.2.2.2.2.2.2.2⟩

/-- Claim C4: transport causes classify by testing the predicates in the
fixed order parse, user, canceled, closed, first match winning, else
HttpOther; in particular a cause with both parse and canceled set
classifies as HttpParse. -/
theorem hyper_kind_first_predicate_wins (h : HyperError) :
    (h.is_parse = true →
      DenoError.kind ⟨.HyperErr h⟩ = some .HttpParse) ∧
    (h.is_parse = false → h.is_user = true →
      DenoError.kind ⟨.HyperErr h⟩ = some .HttpUser) ∧
    (h.is_parse = false → h.is_user = false → h.is_canceled = true →
      DenoError.kind ⟨.HyperErr h⟩ = some .HttpCanceled) ∧
    (h.is_parse = false → h.is_user = false → h.is_canceled = false →
      h.is_closed = true →
      DenoError.kind ⟨.HyperErr h⟩ = some .HttpClosed) ∧
    (h.is_parse = false → h.is_user = false → h.is_canceled = false →
      h.is_closed = false →
      DenoError.kind ⟨.HyperErr h⟩ = some .HttpOther) := by
  refine ⟨?_, ?_, ?_, ?_, ?_⟩ <;> intros <;> simp_all [DenoError.kind]

/-- Witness for C4 at a cause with both the parse and canceled predicates
set: it classifies as HttpParse. -/
theorem hyper_kind_first_predicate_wins_witness :
    DenoError.kind
      ⟨.HyperErr ⟨true, false, true, false, "parse error", "parse error"⟩⟩
      = some .HttpParse :=
  (hyper_kind_first_predicate_wins
    ⟨true, false, true, false, "parse error", "parse error"⟩).1 rfl

/-- Claim C5: a bootstrap script failing synchronously with a Simple
InvalidInput error carrying the message bad config makes the process render
the error (after source-map translation) to the diagnostic stream with the
message contained in the output, exit with status 1, and never enter the
event loop. -/
theorem bootstrap_failure_fatal (smap : JSError → JSError) :
    (∃ line pre post,
      (runIsolateBootstrap smap
        (.error (DenoError.new .InvalidInput "bad config"))).output = [line] ∧
      line = pre ++ "bad config" ++ post) ∧
    (runIsolateBootstrap smap
      (.error (DenoError.new .InvalidInput "bad config"))).exitStatus
      = some 1 ∧
    (runIsolateBootstrap smap
      (.error (DenoError.new .InvalidInput "bad config"))).enteredEventLoop
      = false := by
  exact ⟨⟨"ERROR RS - bad config", "ERROR RS - ", "", rfl, rfl⟩, rfl, rfl⟩

/-- Claim C6: cause introspection returns the wrapped foreign error exactly
for the io, url and transport variants, and none for the Simple,
import-map, diagnostic and script-exception variants. -/
theorem cause_spec (k : ErrorKind) (m : String) (io : IoError) (u : UrlErr)
    (hy : HyperError) (im : ImportMapError) (d : Diagnostic) (js : JSError) :
    DenoError.cause ⟨.IoErr io⟩ = some (.io io) ∧
    DenoError.cause ⟨.UrlErr u⟩ = some (.url u) ∧
    DenoError.cause ⟨.HyperErr hy⟩ = some (.hyper hy) ∧
    DenoError.cause ⟨.Simple k m⟩ = none ∧
    DenoError.cause ⟨.ImportMapErr im⟩ = none ∧
    DenoError.cause ⟨.Diagnostic d⟩ = none ∧
    DenoError.cause ⟨.JSError js⟩ = none :=
  ⟨rfl, rfl, rfl, rfl, rfl, rfl, rfl⟩

/-- Claim C7: the description accessor returns the stored message for
Simple, the foreign description for io, url and transport, the message
field for import-map, the first item message for a nonempty diagnostic
batch, and the exception message for a script exception. -/
theorem description_spec (k : ErrorKind) (m : String) (io : IoError)
    (u : UrlErr) (hy : HyperError) (im : ImportMapError) (d : Diagnostic)
    (js : JSError) :
    DenoError.description ⟨.Simple k m⟩ = some m ∧
    DenoError.description ⟨.IoErr io⟩ = some io.description ∧
    DenoError.description ⟨.UrlErr u⟩ = some u.description ∧
    DenoError.description ⟨.HyperErr hy⟩ = some hy.description ∧
    DenoError.description ⟨.ImportMapErr im⟩ = some im.msg ∧
    (∀ i rest, d.items = i :: rest →
      DenoError.description ⟨.Diagnostic d⟩ = some i.message) ∧
    DenoError.description ⟨.JSError js⟩ = some js.message := by
  refine ⟨rfl, rfl, rfl, rfl, rfl, ?_, rfl⟩
  intro i rest hitems
  simp [DenoError.description, hitems]

/-- Witness for C7 at a concrete one-item diagnostic batch. -/
theorem description_spec_witness :
    (Diagnostic.mk [⟨"type error"⟩]).items = ⟨"type error"⟩ :: [] ∧
    DenoError.description ⟨.Diagnostic (Diagnostic.mk [⟨"type error"⟩])⟩
      = some "type error" :=
  ⟨rfl,
    ((description_spec .Other "" ⟨.Other, "", ""⟩ .EmptyHost
      ⟨false, false, false, false, "", ""⟩ ⟨""⟩
      (Diagnostic.mk [⟨"type error"⟩]) ⟨"", []⟩).2.2.2.2.2.1
      ⟨"type error"⟩ [] rfl)⟩

/-- Claim C8: converting a resolve-address failure: a syntax cause yields a
fixed invalid-address-syntax message, and a resolution cause wraps its io
error unchanged, so the result has that io error's kind and rendered
text. -/
theorem fromResolveAddrError_spec (io : IoError) :
    DenoError.fromResolveAddrError .SyntaxErr
      = ⟨.Simple .InvalidInput "invalid address syntax"⟩ ∧
    (DenoError.fromResolveAddrError .SyntaxErr).display
      = "invalid address syntax" ∧
    DenoError.fromResolveAddrError (.Resolution io) = ⟨.IoErr io⟩ ∧
    DenoError.kind (DenoError.fromResolveAddrError (.Resolution io))
      = DenoError.kind ⟨.IoErr io⟩ ∧
    (DenoError.fromResolveAddrError (.Resolution io)).display = io.display :=
  ⟨rfl, rfl, rfl, rfl, rfl⟩

/-- Claim C9: the logging threshold fixed at startup is Debug when the
debug flag is set and Info otherwise, and every record at or below the
threshold renders as one line LEVEL space RS space dash space message. -/
theorem logger_spec (dbg : Bool) (r : LogRecord)
    (h : r.level.toNat ≤ (maxLevel dbg).toNat) :
    maxLevel true = .Debug ∧ maxLevel false = .Info ∧
    Logger.log (maxLevel dbg) r = some (r.level.str ++ " RS - " ++ r.args) := by
  refine ⟨rfl, rfl, ?_⟩
  simp [Logger.log, Logger.enabled, h]

/-- Witness for C9 at an info record against the default threshold. -/
theorem logger_spec_witness :
    (LogRecord.mk .Info "server listening").level.toNat
      ≤ (maxLevel false).toNat ∧
    Logger.log (maxLevel false) (LogRecord.mk .Info "server listening")
      = some ("INFO RS - server listening") :=
  ⟨by decide,
    (logger_spec false (LogRecord.mk .Info "server listening") (by decide)).2.2⟩

/-- Claim C10: source-map translation preserves classification for every
unified error and every getter: a script exception stays a script exception
and every other variant passes through unchanged. -/
theorem apply_source_map_preserves_kind (smap : JSError → JSError)
    (e : DenoError) :
    DenoError.kind (DenoError.apply_source_map smap e) = DenoError.kind e := by
  obtain ⟨r⟩ := e
  cases r <;> rfl
